import Mathlib

/-!
Verification development for the `ai-code-pdf-tools` repository
(`tools/validate_links.py`, `tools/pdf_converter.py`,
`tools/generate_doc_index.py`, `tools/pdf_summary.py`).

The Python sources are shallowly embedded: strings are Lean `String`
values manipulated through their character lists, the file system and
the external `pdfinfo` / path-resolution collaborators are explicit
oracle parameters, and every Python function relevant to the claims is
translated into a computable Lean definition keeping its source name.
Python string primitives (`startswith`, `strip`, `split`, `lower`,
`isupper`, slicing) are re-implemented on character lists; case
predicates are modelled at the ASCII level, which is where the source
heuristics are exercised.
-/

namespace PdfTools

/-! ### Python string primitives, modelled on character lists -/

/-- Boolean test that `p` is a prefix of `l` (Python `startswith` on lists). -/
def pfxOf : List Char → List Char → Bool
  | [], _ => true
  | _ :: _, [] => false
  | a :: as, b :: bs => a == b && pfxOf as bs

/-- Python `s.startswith(p)`. -/
def pyStartsWith (s p : String) : Bool :=
  pfxOf p.data s.data

/-- Python `s.startswith((p1, p2, ...))`: true if any alternative matches. -/
def startsWithAny (s : String) (ps : List String) : Bool :=
  ps.any (fun p => pyStartsWith s p)

/-- Python `s.endswith(p)`. -/
def pyEndsWith (s p : String) : Bool :=
  pfxOf p.data.reverse s.data.reverse

/-- Python `s.rstrip()`: drop trailing whitespace. -/
def pyRStrip (s : String) : String :=
  String.mk ((s.data.reverse.dropWhile Char.isWhitespace).reverse)

/-- Python `s.lstrip()`: drop leading whitespace. -/
def pyLStrip (s : String) : String :=
  String.mk (s.data.dropWhile Char.isWhitespace)

/-- Python `s.strip()`: drop whitespace on both ends. -/
def pyStrip (s : String) : String :=
  String.mk (((s.data.dropWhile Char.isWhitespace).reverse.dropWhile
    Char.isWhitespace).reverse)

/-- Python `s.split(sep)` for a one-character separator; `"".split(c) = [""]`. -/
def splitOnChar (sep : Char) : List Char → List (List Char)
  | [] => [[]]
  | c :: cs =>
    let r := splitOnChar sep cs
    if c == sep then
      [] :: r
    else
      match r with
      | [] => [[c]]
      | h :: t => (c :: h) :: t

/-- Python `content.split(chr(10))`: the physical lines of a text. -/
def pySplitLines (s : String) : List String :=
  (splitOnChar (Char.ofNat 10) s.data).map String.mk

/-- Python `s.lower()`, modelled at the ASCII level via `Char.toLower`. -/
def pyLower (s : String) : String :=
  String.mk (s.data.map Char.toLower)

/-- Python `s.replace(a, b)` for one-character `a` and `b`: a characterwise map. -/
def replaceChar (a b : Char) (s : String) : String :=
  String.mk (s.data.map (fun c => if c == a then b else c))

/-- Python `s.replace(a, "")` for a one-character `a`: a characterwise filter. -/
def removeChar (a : Char) (s : String) : String :=
  String.mk (s.data.filter (fun c => c != a))

/-- Python slice `s[:n]`: the first `n` characters. -/
def pyTrunc (s : String) (n : Nat) : String :=
  String.mk (s.data.take n)

/-- Python `sep.join(xs)`. -/
def pyJoin (sep : String) : List String → String
  | [] => ""
  | [x] => x
  | x :: y :: t => x ++ sep ++ pyJoin sep (y :: t)

/-- Word-counting core for Python `s.split()`: counts maximal non-whitespace
runs, threading a flag recording whether the previous character was inside
a word. -/
def countWords : List Char → Bool → Nat
  | [], _ => 0
  | c :: cs, inWord =>
    if c.isWhitespace then
      countWords cs false
    else
      (if inWord then 0 else 1) + countWords cs true

/-- Python `len(s.split())`: the number of whitespace-separated words. -/
def wordCount (s : String) : Nat :=
  countWords s.data false

/-- Python `s.isupper()`: at least one cased character and no lower-case
character, with cased characters modelled as ASCII letters. -/
def pyIsUpper (s : String) : Bool :=
  s.data.any (fun c => c.isUpper || c.isLower) && s.data.all (fun c => !c.isLower)

/-- Boolean substring test: `pat` occurs contiguously inside `l`
(Python `pat in s`). -/
def subOf (pat : List Char) : List Char → Bool
  | [] => pfxOf pat []
  | c :: cs => pfxOf pat (c :: cs) || subOf pat cs

/-- Python `pat in s` for strings. -/
def strContains (s pat : String) : Bool :=
  subOf pat.data s.data

/-! ### tools/validate_links.py — data model and oracles -/

/-- File-system oracle seen by `validate_links.py`: `resolve` models
`pathlib.Path.resolve()` (which may raise, hence `Except`, with the
error message as the Python exception text) and `pathExists` models
`Path.exists()`. -/
structure FileSystem where
  resolve : String → Except String String
  pathExists : String → Bool

/-- Outcome of `subprocess.run(["pdfinfo", path], ...)` as observed by
`validate_pdf_accessibility`: a completed process with its return code
and stderr, a `TimeoutExpired`, a `FileNotFoundError` (the tool is not
installed), or any other exception with its message. -/
inductive PdfInfoRun where
  | completed (returncode : Int) (stderr : String)
  | timedOut
  | toolMissing
  | failed (msg : String)
deriving DecidableEq, Repr

/-- Python `base_dir / rel` for a relative `rel` (pathlib join). -/
def joinPath (base rel : String) : String :=
  base ++ "/" ++ rel

/-- Embedding of `validate_local_file(file_path, base_dir)`
(validate_links.py lines 51-73): anchor and http prefixes short-circuit,
otherwise the target is joined to `base_dir` unless it starts with `/`,
resolved through the oracle, and checked for existence; a resolution
exception is caught and turned into an invalid verdict. -/
def validate_local_file (fs : FileSystem) (file_path base_dir : String) :
    Bool × String :=
  if pyStartsWith file_path "#" then
    (true, "Anchor link")
  else if pyStartsWith file_path "http" then
    (true, "External URL (not validated)")
  else
    let full_path :=
      if pyStartsWith file_path "/" then file_path
      else joinPath base_dir file_path
    match fs.resolve full_path with
    | Except.ok resolved_path =>
        if fs.pathExists resolved_path then
          (true, "File exists: " ++ resolved_path)
        else
          (false, "File not found: " ++ resolved_path)
    | Except.error e =>
        (false, "Error resolving path: " ++ e)

/-- Embedding of `validate_pdf_accessibility(pdf_path)`
(validate_links.py lines 75-94), as a function of the `pdfinfo`
process outcome. -/
def validate_pdf_accessibility : PdfInfoRun → Bool × String
  | PdfInfoRun.completed rc stderr =>
      if rc == 0 then (true, "PDF is readable")
      else (false, "PDF validation failed: " ++ stderr)
  | PdfInfoRun.timedOut => (false, "PDF validation timed out")
  | PdfInfoRun.toolMissing =>
      (true, "pdfinfo not available (install poppler-utils for PDF validation)")
  | PdfInfoRun.failed msg => (false, "PDF validation error: " ++ msg)

/-- Link record built by `extract_links`: syntax kind (`"markdown"`,
`"reference"` or `"html"`), display text, and raw target. -/
structure Link where
  ltype : String
  text : String
  url : String
deriving DecidableEq, Repr

/-- Verdict of a single link, mirroring the result dictionaries of
`validate_links_in_file`. -/
inductive Status where
  | valid
  | invalid
  | skipped
deriving DecidableEq, Repr

/-- Result dictionary for one link: url, text, type, status, message and
the optional `pdf_status` / `pdf_message` keys. -/
structure VResult where
  url : String
  text : String
  ltype : String
  status : Status
  message : String
  pdf_status : Option Status
  pdf_message : Option String
deriving DecidableEq, Repr

/-- Element of the list returned by `validate_links_in_file`: either the
single error dictionary produced when the file cannot be read, or a
per-link result dictionary. -/
inductive Entry where
  | err (msg : String)
  | res (r : VResult)
deriving DecidableEq, Repr

/-- Test from validate_links.py line 113: the three special protocols
that are skipped. -/
def isSpecial (url : String) : Bool :=
  startsWithAny url ["mailto:", "tel:", "javascript:"]

/-- Path used for the extra PDF check (validate_links.py line 136):
`file_path.parent / url if not url.startswith(chr(47)) else Path(url)`,
checked for existence without resolving. -/
def pdfPathOf (dir url : String) : String :=
  if pyStartsWith url "/" then url else joinPath dir url

/-- Body of the per-link loop of `validate_links_in_file`
(validate_links.py lines 107-142): the special protocols are recorded as
skipped, every other target goes through `validate_local_file`, and a
valid target ending in `.pdf` whose joined path exists additionally gets
a `pdf_status` from `validate_pdf_accessibility`. -/
def process_link (fs : FileSystem) (pdfinfo : String → PdfInfoRun)
    (dir : String) (l : Link) : Entry :=
  if isSpecial l.url then
    Entry.res ⟨l.url, l.text, l.ltype, Status.skipped, "Special protocol",
      none, none⟩
  else
    let v := validate_local_file fs l.url dir
    let base : VResult :=
      ⟨l.url, l.text, l.ltype,
        if v.1 then Status.valid else Status.invalid, v.2, none, none⟩
    if pyEndsWith l.url ".pdf" && v.1 then
      let pdf_path := pdfPathOf dir l.url
      if fs.pathExists pdf_path then
        let p := validate_pdf_accessibility (pdfinfo pdf_path)
        Entry.res { base with
          pdf_status := some (if p.1 then Status.valid else Status.invalid),
          pdf_message := some p.2 }
      else Entry.res base
    else Entry.res base

/-! ### tools/validate_links.py — link extraction (the three regexes) -/

/-- Attempted match of the inline pattern at the head of the input: an
opening bracket, text up to the first closing bracket, then immediately
an opening parenthesis, a nonempty target up to the first closing
parenthesis, and that closing parenthesis.  Returns the two captured
groups and the remaining input. -/
def tryInline : List Char → Option (String × String × List Char)
  | '[' :: rest =>
    let txt := rest.takeWhile (fun c => c != ']')
    match rest.dropWhile (fun c => c != ']') with
    | ']' :: '(' :: r2 =>
      let url := r2.takeWhile (fun c => c != ')')
      match r2.dropWhile (fun c => c != ')') with
      | ')' :: r4 =>
        if url.isEmpty then none
        else some (String.mk txt, String.mk url, r4)
      | _ => none
    | _ => none
  | _ => none

/-- Left-to-right non-overlapping scan of the inline pattern
(`re.findall` over the whole content); `fuel` bounds the recursion and is
instantiated with the input length. -/
def scanInline : Nat → List Char → List (String × String)
  | 0, _ => []
  | _, [] => []
  | fuel + 1, c :: cs =>
    match tryInline (c :: cs) with
    | some (t, u, rest) => (t, u) :: scanInline fuel rest
    | none => scanInline fuel cs

/-- Attempted match of the reference pattern against one whole line:
an opening bracket at line start, nonempty text up to the first closing
bracket, then a colon, optional whitespace, and a nonempty remainder.
When the remainder is entirely whitespace the greedy whitespace class
backtracks one character, leaving the last character as the target. -/
def tryRef (line : List Char) : Option (String × String) :=
  match line with
  | '[' :: rest =>
    let txt := rest.takeWhile (fun c => c != ']')
    if txt.isEmpty then none
    else
      match rest.dropWhile (fun c => c != ']') with
      | ']' :: ':' :: r2 =>
        if r2.isEmpty then none
        else
          let stripped := r2.dropWhile Char.isWhitespace
          if stripped.isEmpty then
            some (String.mk txt, String.mk [r2.getLastD ' '])
          else
            some (String.mk txt, String.mk stripped)
      | _ => none
  | _ => none

/-- Attempted match of the HTML pattern at the head of the input: `<a`,
at least one whitespace character, `href=`, an opening quote of either
kind, a nonempty target free of quotes, and a closing quote of either
kind.  Returns the captured target and the remaining input. -/
def tryHtml : List Char → Option (String × List Char)
  | '<' :: 'a' :: rest =>
    if (rest.takeWhile Char.isWhitespace).isEmpty then none
    else
      match rest.dropWhile Char.isWhitespace with
      | 'h' :: 'r' :: 'e' :: 'f' :: '=' :: q :: r2 =>
        if q == '"' || q == Char.ofNat 39 then
          let url := r2.takeWhile (fun c => c != '"' && c != Char.ofNat 39)
          match r2.dropWhile (fun c => c != '"' && c != Char.ofNat 39) with
          | _ :: r4 =>
            if url.isEmpty then none else some (String.mk url, r4)
          | [] => none
        else none
      | _ => none
  | _ => none

/-- Left-to-right non-overlapping scan of the HTML pattern. -/
def scanHtml : Nat → List Char → List String
  | 0, _ => []
  | _, [] => []
  | fuel + 1, c :: cs =>
    match tryHtml (c :: cs) with
    | some (u, rest) => u :: scanHtml fuel rest
    | none => scanHtml fuel cs

/-- Embedding of `extract_links(content)` (validate_links.py lines
24-49): inline matches over the whole content, then reference matches
line by line (the pattern is anchored at line start and spans the rest
of the line), then HTML href matches, in that order. -/
def extract_links (content : String) : List Link :=
  let md := (scanInline content.data.length content.data).map
    (fun p => Link.mk "markdown" p.1 p.2)
  let refs := ((pySplitLines content).filterMap (fun l => tryRef l.data)).map
    (fun p => Link.mk "reference" p.1 p.2)
  let html := (scanHtml content.data.length content.data).map
    (fun u => Link.mk "html" "" u)
  md ++ refs ++ html

/-- Embedding of `validate_links_in_file(file_path)` (validate_links.py
lines 96-144).  Reading the file is modelled by the `readResult`
parameter: a read failure yields the single error dictionary, otherwise
each extracted link produces exactly one result via `process_link`. -/
def validate_links_in_file (fs : FileSystem) (pdfinfo : String → PdfInfoRun)
    (readResult : Except String String) (dir : String) : List Entry :=
  match readResult with
  | Except.error e => [Entry.err ("Could not read file: " ++ e)]
  | Except.ok content =>
      (extract_links content).map (fun l => process_link fs pdfinfo dir l)

/-! ### tools/validate_links.py — aggregation in main (lines 163-213) -/

/-- Corpus-wide counters accumulated by `main`. -/
structure Totals where
  total_links : Nat
  invalid_links : Nat
  pdf_links : Nat
  invalid_pdfs : Nat
deriving DecidableEq, Repr

/-- Per-result accounting of the inner loop of `main` (validate_links.py
lines 176-200): error entries are skipped; each result bumps
`total_links`; a `.pdf` url bumps `pdf_links`, and bumps `invalid_pdfs`
only when `--pdf-only` or `--verbose` is set, because in the source the
increment sits inside the display-only guard
`if args.pdf_only or args.verbose:`; an invalid status bumps
`invalid_links`. -/
def tallyEntry (verbose pdf_only : Bool) (t : Totals) : Entry → Totals
  | Entry.err _ => t
  | Entry.res r =>
    let t1 : Totals := { t with total_links := t.total_links + 1 }
    let t2 : Totals :=
      if pyEndsWith r.url ".pdf" then
        let tp : Totals := { t1 with pdf_links := t1.pdf_links + 1 }
        if (pdf_only || verbose) && (r.pdf_status == some Status.invalid) then
          { tp with invalid_pdfs := tp.invalid_pdfs + 1 }
        else tp
      else t1
    if r.status == Status.invalid then
      { t2 with invalid_links := t2.invalid_links + 1 }
    else t2

/-- Aggregation of `main` over all per-file result lists. -/
def aggregate (verbose pdf_only : Bool)
    (fileResults : List (List Entry)) : Totals :=
  fileResults.foldl (fun acc rs => rs.foldl (tallyEntry verbose pdf_only) acc)
    ⟨0, 0, 0, 0⟩

/-- Process exit code of `main` (validate_links.py lines 211-215):
`1` when either accumulated invalid count is nonzero, `0` otherwise. -/
def main_exit (verbose pdf_only : Bool)
    (fileResults : List (List Entry)) : Nat :=
  let t := aggregate verbose pdf_only fileResults
  if t.invalid_links > 0 || t.invalid_pdfs > 0 then 1 else 0

/-- Classification of a raw target induced by the branch order of
`validate_links_in_file` and `validate_local_file`: special protocols
first, then anchors, then targets starting with `http`, and every
remaining target is treated as a local file path. -/
inductive LinkClass where
  | skippedSpecial
  | anchor
  | external
  | localFile
deriving DecidableEq, Repr

/-- Target classification followed by the validator (validate_links.py
lines 53-57 and 113). -/
def classify_target (url : String) : LinkClass :=
  if isSpecial url then LinkClass.skippedSpecial
  else if pyStartsWith url "#" then LinkClass.anchor
  else if pyStartsWith url "http" then LinkClass.external
  else LinkClass.localFile

/-- Reads the `pdf_status` field of a result entry, if any. -/
def entryPdfStatus : Entry → Option Status
  | Entry.err _ => none
  | Entry.res r => r.pdf_status

/-! ### tools/pdf_converter.py — line classification (lines 82-107) -/

/-- Kind of structural block assigned to one physical line by
`convert_to_markdown`. -/
inductive BlockKind where
  | heading
  | orderedItem
  | unorderedItem
  | indentedText
  | blankLine
  | paragraph
deriving DecidableEq, Repr

/-- Rule 1 of the classifier (pdf_converter.py line 90):
`line.isupper() and len(line) > 5 and len(line.split()) < 10`. -/
def isHeadingLine (line : String) : Bool :=
  pyIsUpper line && line.data.length > 5 && wordCount line < 10

/-- Rule 2 (pdf_converter.py line 93): the line starts with one of the
ordinals `1.` through `10.`. -/
def isOrderedLine (line : String) : Bool :=
  startsWithAny line
    ["1.", "2.", "3.", "4.", "5.", "6.", "7.", "8.", "9.", "10."]

/-- Rule 3 (pdf_converter.py line 96): the line starts with one of the
bullet alternatives; the first alternative in the source is the literal
three-character sequence that appears there (a mojibake rendering of the
bullet glyph), kept verbatim. -/
def isBulletLine (line : String) : Bool :=
  startsWithAny line ["â€¢", "-", "*"]

/-- Rule 4 (pdf_converter.py line 99): at least three leading spaces and
a nonempty strip. -/
def isIndentedLine (line : String) : Bool :=
  pyStartsWith line "   " && !(pyStrip line).isEmpty

/-- Rule 5 (pdf_converter.py line 102): the line is empty. -/
def isBlankLineTest (line : String) : Bool :=
  line.isEmpty

/-- Classification chain of `convert_to_markdown` (pdf_converter.py
lines 82-107): the raw line is first right-stripped, then the six rules
are tried in source order with first match winning, the final `else`
yielding `paragraph`. -/
def classify_line (rawLine : String) : BlockKind :=
  let line := pyRStrip rawLine
  if isHeadingLine line then BlockKind.heading
  else if isOrderedLine line then BlockKind.orderedItem
  else if isBulletLine line then BlockKind.unorderedItem
  else if isIndentedLine line then BlockKind.indentedText
  else if isBlankLineTest line then BlockKind.blankLine
  else BlockKind.paragraph

/-! ### tools/generate_doc_index.py — headings and anchors (121-138) -/

/-- Anchor slug chain shared verbatim by generate_doc_index.py line 135
and pdf_summary.py line 115:
`text.lower().replace(chr(32), chr(45)).replace(...)` — lower-case,
replace every space character by a hyphen, then delete the four
characters period, comma, opening and closing parenthesis. -/
def anchor_of (text : String) : String :=
  removeChar ')' (removeChar '(' (removeChar ',' (removeChar '.'
    (replaceChar ' ' '-' (pyLower text)))))

/-- Heading record produced by `extract_headings`. -/
structure Heading where
  level : Nat
  text : String
  anchor : String
deriving DecidableEq, Repr

/-- Per-line body of `extract_headings` (generate_doc_index.py lines
126-136): the line is stripped; if it starts with `#` the heading level
is the number of leading hash characters, and when that level is at most
six the remaining text is stripped and paired with its anchor slug. -/
def headingOfLine (rawLine : String) : Option Heading :=
  let line := pyStrip rawLine
  if pyStartsWith line "#" then
    let level := (line.data.takeWhile (fun c => c == '#')).length
    if level ≤ 6 then
      let text := pyStrip (String.mk (line.data.dropWhile (fun c => c == '#')))
      some ⟨level, text, anchor_of text⟩
    else none
  else none

/-- Embedding of `extract_headings(content)` (generate_doc_index.py
lines 121-138). -/
def extract_headings (content : String) : List Heading :=
  (pySplitLines content).filterMap headingOfLine

/-! ### tools/pdf_summary.py — sections, table of contents, previews -/

/-- Section accumulated by `create_summary_markdown`: a detected title
line and the stripped content lines collected under it. -/
structure PSection where
  title : String
  content : List String
deriving DecidableEq, Repr

/-- Heading test of the section-detection loop (pdf_summary.py lines
72-76): all-caps and longer than five characters, or starting with an
ordinal `1.`-`5.` or a bullet glyph, or containing one of the words
`Table of Contents`, `Chapter`, `Section`. -/
def isSummaryHeading (line : String) : Bool :=
  (pyIsUpper line && line.data.length > 5) ||
  startsWithAny line ["1.", "2.", "3.", "4.", "5.", "•", "-", "*"] ||
  strContains line "Table of Contents" ||
  strContains line "Chapter" ||
  strContains line "Section"

/-- Step of the section-detection loop (pdf_summary.py lines 66-81):
empty stripped lines are skipped; a heading line closes the current
section and opens a new one; any other line is appended to the current
section when one is open and dropped otherwise. -/
def sectionStep (acc : List PSection × Option PSection) (rawLine : String) :
    List PSection × Option PSection :=
  let line := pyStrip rawLine
  if line.isEmpty then acc
  else if isSummaryHeading line then
    match acc.2 with
    | some cur => (acc.1 ++ [cur], some ⟨line, []⟩)
    | none => (acc.1, some ⟨line, []⟩)
  else
    match acc.2 with
    | some cur => (acc.1, some ⟨cur.title, cur.content ++ [line]⟩)
    | none => acc

/-- Section detection of `create_summary_markdown` (pdf_summary.py lines
62-84), including the final flush of the open section. -/
def detect_sections (text_content : String) : List PSection :=
  let r := (pySplitLines text_content).foldl sectionStep ([], none)
  match r.2 with
  | some cur => r.1 ++ [cur]
  | none => r.1

/-- Table-of-contents line for one section (pdf_summary.py lines
113-115): one-based index, title truncated to 100 characters, and the
anchor slug of the truncated title. -/
def toc_entry (i : Nat) (s : PSection) : String :=
  let title := pyTrunc s.title 100
  toString i ++ ". [" ++ title ++ "](#" ++ anchor_of title ++ ")"

/-- Table-of-contents lines of the summary (pdf_summary.py line 113):
the enumeration runs over `sections[:20]` with one-based indices. -/
def toc_entries (sections : List PSection) : List String :=
  ((sections.take 20).enum).map (fun p => toc_entry (p.1 + 1) p.2)

/-- Content preview of one section (pdf_summary.py line 122): when the
section has content, the first three content lines joined by spaces,
sliced to 200 characters, with a three-character ellipsis appended;
otherwise the fixed string `No content`. -/
def content_preview (s : PSection) : String :=
  if s.content.isEmpty then "No content"
  else pyTrunc (pyJoin " " (s.content.take 3)) 200 ++ "..."

/-- Key-section blocks of the summary (pdf_summary.py lines 120-125):
title and content preview for each of `sections[:10]`. -/
def key_section_blocks (sections : List PSection) : List (String × String) :=
  (sections.take 10).map (fun s => (s.title, content_preview s))

/-! ### Spec-side slug, for comparison with the source chain -/

/-- Core of the specification slug: every maximal run of whitespace
characters becomes a single hyphen; the flag records whether the
previous character was whitespace. -/
def collapseWsAux : List Char → Bool → List Char
  | [], _ => []
  | c :: cs, prevWs =>
    if c.isWhitespace then
      if prevWs then collapseWsAux cs true
      else '-' :: collapseWsAux cs true
    else c :: collapseWsAux cs false

/-- Modelled from the spec: the slug described in section 4.1 of the
specification — lower-casing, replacing every run of whitespace
characters by a single hyphen, then stripping period, comma and the two
parentheses.  Defined only to be compared with the source chain
`anchor_of`. -/
def specSlug (text : String) : String :=
  removeChar ')' (removeChar '(' (removeChar ',' (removeChar '.'
    (String.mk (collapseWsAux (pyLower text).data false)))))

/-- Characterwise description of the source slug chain: lower-case the
character, turn a space into a hyphen, and drop it when it is one of the
four stripped characters. -/
def charSlugStep (c : Char) : Option Char :=
  let d := Char.toLower c
  let e := if d == ' ' then '-' else d
  if e != '.' && e != ',' && e != '(' && e != ')' then some e else none

/-- Single-pass form of the slug actually computed by the source chain:
lower-case, replace each space character by a hyphen, then remove the
four characters period, comma and parentheses. -/
def sourceSlugSinglePass (text : String) : String :=
  String.mk (((text.data.map Char.toLower).map
    (fun c => if c == ' ' then '-' else c)).filter
    (fun c => c != '.' && c != ',' && c != '(' && c != ')'))

/-! ### Concrete fixtures used by witnesses and counterexamples -/

/-- Oracle where resolution is the identity and every path exists. -/
def fsAll : FileSystem := ⟨fun s => Except.ok s, fun _ => true⟩

/-- Oracle where resolution is the identity and no path exists. -/
def fsNone : FileSystem := ⟨fun s => Except.ok s, fun _ => false⟩

/-- Oracle where every path resolves to `/docs/index.md`, which is the
only existing path. -/
def fsDocs : FileSystem :=
  ⟨fun _ => Except.ok "/docs/index.md", fun s => s == "/docs/index.md"⟩

/-- Oracle where every resolution raises with message `boom`. -/
def fsBroken : FileSystem := ⟨fun _ => Except.error "boom", fun _ => false⟩

/-- Collaborator oracle where `pdfinfo` is not installed. -/
def envMissing : String → PdfInfoRun := fun _ => PdfInfoRun.toolMissing

/-- Collaborator oracle where `pdfinfo` exits with code 1. -/
def envBadPdf : String → PdfInfoRun := fun _ => PdfInfoRun.completed 1 "corrupt"

/-- Per-file results of a corpus with one markdown file holding one link
to an existing but unparseable PDF. -/
def corpusOneBadPdf : List (List Entry) :=
  [validate_links_in_file fsAll envBadPdf (Except.ok "[doc](./manual.pdf)")
    "/docs"]

/-- Markdown document with one inline link, one reference link and one
HTML href. -/
def sampleDoc : String := "[a](b.md)\n[ref]: target.md\n<a href=\"x.html\">"

/-- Extracted PDF text with one all-caps heading line followed by one
250-character content line. -/
def longPdfText : String :=
  "INTRODUCTION HERE\n" ++ String.mk (List.replicate 250 'a')

/-! ### Claim theorems -/

/-- C1: on a corpus whose single markdown file links to an existing but
unparseable PDF, the invalid-PDF tally of `main` stays at zero and the
exit code is zero when neither `--verbose` nor `--pdf-only` is set, yet
the same results tally one invalid PDF and exit nonzero once either flag
is set — the aggregation is not independent of the flags, because the
`invalid_pdfs` increment sits inside the display-only flag guard. -/
theorem C1_invalid_pdf_count_depends_on_flags :
    aggregate false false corpusOneBadPdf =
      ⟨1, 0, 1, 0⟩ ∧
    aggregate false true corpusOneBadPdf =
      ⟨1, 0, 1, 1⟩ ∧
    aggregate true false corpusOneBadPdf =
      ⟨1, 0, 1, 1⟩ ∧
    main_exit false false corpusOneBadPdf = 0 ∧
    main_exit false true corpusOneBadPdf = 1 ∧
    main_exit true false corpusOneBadPdf = 1 := by
  decide

/-- C2: for a target that is neither an anchor nor an http URL, when the
oracle resolves the joined (or absolute) path successfully, the verdict
is valid exactly when the resolved path exists, and the reason string
names the resolved absolute path in both cases. -/
theorem C2_local_file_existence (fs : FileSystem) (url dir resolved : String)
    (h1 : pyStartsWith url "#" = false)
    (h2 : pyStartsWith url "http" = false)
    (h3 : fs.resolve (if pyStartsWith url "/" then url else joinPath dir url) =
      Except.ok resolved) :
    validate_local_file fs url dir =
      if fs.pathExists resolved then (true, "File exists: " ++ resolved)
      else (false, "File not found: " ++ resolved) := by
  unfold validate_local_file
  simp only [h1, h2, h3, Bool.false_eq_true, if_false]

/-- Witness for C2 at a concrete oracle and target: `./index.md`
resolving to the existing `/docs/index.md` is reported valid with the
resolved path in the reason. -/
theorem C2_local_file_existence_witness :
    validate_local_file fsDocs "./index.md" "/docs" =
      (true, "File exists: /docs/index.md") := by
  have h := C2_local_file_existence fsDocs "./index.md" "/docs"
    "/docs/index.md" (by decide) (by decide) rfl
  rw [h]
  decide

/-- C3: the block kind assigned by `convert_to_markdown` to a physical
line is a total function of that line alone, and each of the six kinds
is produced exactly when its rule is the first of the six rules, in
source order, to match the right-stripped line. -/
theorem C3_classification_total_first_match (rawLine : String) :
    (classify_line rawLine = BlockKind.heading ↔
      isHeadingLine (pyRStrip rawLine) = true) ∧
    (classify_line rawLine = BlockKind.orderedItem ↔
      (isHeadingLine (pyRStrip rawLine) = false ∧
       isOrderedLine (pyRStrip rawLine) = true)) ∧
    (classify_line rawLine = BlockKind.unorderedItem ↔
      (isHeadingLine (pyRStrip rawLine) = false ∧
       isOrderedLine (pyRStrip rawLine) = false ∧
       isBulletLine (pyRStrip rawLine) = true)) ∧
    (classify_line rawLine = BlockKind.indentedText ↔
      (isHeadingLine (pyRStrip rawLine) = false ∧
       isOrderedLine (pyRStrip rawLine) = false ∧
       isBulletLine (pyRStrip rawLine) = false ∧
       isIndentedLine (pyRStrip rawLine) = true)) ∧
    (classify_line rawLine = BlockKind.blankLine ↔
      (isHeadingLine (pyRStrip rawLine) = false ∧
       isOrderedLine (pyRStrip rawLine) = false ∧
       isBulletLine (pyRStrip rawLine) = false ∧
       isIndentedLine (pyRStrip rawLine) = false ∧
       isBlankLineTest (pyRStrip rawLine) = true)) ∧
    (classify_line rawLine = BlockKind.paragraph ↔
      (isHeadingLine (pyRStrip rawLine) = false ∧
       isOrderedLine (pyRStrip rawLine) = false ∧
       isBulletLine (pyRStrip rawLine) = false ∧
       isIndentedLine (pyRStrip rawLine) = false ∧
       isBlankLineTest (pyRStrip rawLine) = false)) := by
  cases h1 : isHeadingLine (pyRStrip rawLine) <;>
    cases h2 : isOrderedLine (pyRStrip rawLine) <;>
      cases h3 : isBulletLine (pyRStrip rawLine) <;>
        cases h4 : isIndentedLine (pyRStrip rawLine) <;>
          cases h5 : isBlankLineTest (pyRStrip rawLine) <;>
            simp [classify_line, h1, h2, h3, h4, h5]

/-- C4 counterexample: the two distinct headings `Setup.` and `Setup,`
produce the same raw slug and receive identical final anchors — no
numeric suffix is appended, so anchors are not injective. -/
theorem C4_duplicate_anchor_cex :
    (extract_headings ("# Setup." ++ String.mk [Char.ofNat 10] ++
        "# Setup,")).map Heading.text = ["Setup.", "Setup,"] ∧
    (extract_headings ("# Setup." ++ String.mk [Char.ofNat 10] ++
        "# Setup,")).map Heading.anchor = ["setup", "setup"] := by
  decide

/-- C4 amended: within a document no deduplication is performed — every
extracted heading carries as its final anchor exactly the raw slug of
its own title, so titles sharing a raw slug share the anchor. -/
theorem C4_anchor_is_raw_slug (content : String) (h : Heading)
    (hm : h ∈ extract_headings content) :
    h.anchor = anchor_of h.text := by
  unfold extract_headings at hm
  rw [List.mem_filterMap] at hm
  obtain ⟨line, _, hline⟩ := hm
  unfold headingOfLine at hline
  dsimp only at hline
  split at hline
  · split at hline
    · have hx := Option.some.inj hline
      subst hx
      rfl
    · exact absurd hline (by simp)
  · exact absurd hline (by simp)

/-- Witness for C4 amended at a concrete document: the single heading of
`# A` carries the raw slug of its title as anchor. -/
theorem C4_anchor_is_raw_slug_witness :
    (⟨1, "A", "a"⟩ : Heading) ∈ extract_headings "# A" ∧
    (⟨1, "A", "a"⟩ : Heading).anchor = anchor_of (⟨1, "A", "a"⟩ : Heading).text :=
  ⟨by decide, C4_anchor_is_raw_slug "# A" ⟨1, "A", "a"⟩ (by decide)⟩

/-- C5 counterexample: the source chain replaces each space separately
and touches nothing but spaces, so `A  B` (two spaces) slugs to `a--b`
rather than the single-hyphen `a-b` demanded by the whitespace-run rule,
and a tab survives unreplaced. -/
theorem C5_space_run_cex :
    anchor_of "A  B" = "a--b" ∧
    specSlug "A  B" = "a-b" ∧
    anchor_of "A  B" ≠ specSlug "A  B" ∧
    anchor_of "A\tB" = "a\tb" ∧
    specSlug "A\tB" = "a-b" ∧
    anchor_of "A\tB" ≠ specSlug "A\tB" := by
  decide

/-- C5 amended: the generated anchor slug equals the title lower-cased,
with each space character replaced by a single hyphen (runs are not
collapsed, other whitespace is untouched) and with the characters
period, comma and parentheses removed. -/
theorem C5_slug_characterwise (text : String) :
    anchor_of text = sourceSlugSinglePass text := by
  unfold anchor_of sourceSlugSinglePass removeChar replaceChar pyLower
  dsimp only
  congr 1
  rw [List.filter_filter, List.filter_filter, List.filter_filter]
  refine List.filter_congr ?_
  intro c _
  cases hc1 : c != '.' <;> cases hc2 : c != ',' <;>
    cases hc3 : c != '(' <;> cases hc4 : c != ')' <;> rfl

/-- C6 counterexample: the target `ftp://example.com/file` begins with a
URL scheme, yet the validator treats it as a local file — with an oracle
where no path exists it is reported invalid with a file-not-found
reason, not valid with a not-validated reason. -/
theorem C6_scheme_cex :
    classify_target "ftp://example.com/file" = LinkClass.localFile ∧
    process_link fsNone envMissing "/docs"
        ⟨"markdown", "x", "ftp://example.com/file"⟩ =
      Entry.res ⟨"ftp://example.com/file", "x", "markdown", Status.invalid,
        "File not found: /docs/ftp://example.com/file", none, none⟩ := by
  decide

/-- C6 amended: every raw target is classified into exactly one of
skipped, anchor, external or local file, following the branch order of
the validator; a target is external exactly when it is not a special
protocol, not an anchor, and starts with the literal prefix `http`
(covering http and https but no other scheme), and such targets are
reported valid with the fixed not-validated reason. -/
theorem C6_classification_http_only (fs : FileSystem) (url dir : String) :
    ((classify_target url = LinkClass.skippedSpecial ↔
        isSpecial url = true) ∧
     (classify_target url = LinkClass.anchor ↔
        (isSpecial url = false ∧ pyStartsWith url "#" = true)) ∧
     (classify_target url = LinkClass.external ↔
        (isSpecial url = false ∧ pyStartsWith url "#" = false ∧
         pyStartsWith url "http" = true)) ∧
     (classify_target url = LinkClass.localFile ↔
        (isSpecial url = false ∧ pyStartsWith url "#" = false ∧
         pyStartsWith url "http" = false))) ∧
    (pyStartsWith url "#" = false → pyStartsWith url "http" = true →
      validate_local_file fs url dir =
        (true, "External URL (not validated)")) := by
  constructor
  · cases hs : isSpecial url <;>
      cases h1 : pyStartsWith url "#" <;>
        cases h2 : pyStartsWith url "http" <;>
          simp [classify_target, hs, h1, h2]
  · intro h1 h2
    unfold validate_local_file
    simp [h1, h2]

/-- Witness for C6 amended at a concrete https target: it is reported
valid with the not-validated reason. -/
theorem C6_classification_http_only_witness :
    validate_local_file fsNone "https://example.com/page" "/docs" =
      (true, "External URL (not validated)") :=
  (C6_classification_http_only fsNone "https://example.com/page" "/docs").2
    (by decide) (by decide)

/-- C7: when the document is readable, the validator returns exactly one
result per extracted link — the result sequence and the extracted link
sequence have the same length. -/
theorem C7_one_result_per_link (fs : FileSystem)
    (pdfinfo : String → PdfInfoRun) (dir content : String)
    (readResult : Except String String)
    (h : readResult = Except.ok content) :
    (validate_links_in_file fs pdfinfo readResult dir).length =
      (extract_links content).length := by
  subst h
  unfold validate_links_in_file
  exact List.length_map _ _

/-- Witness for C7 on a concrete document mixing the three syntaxes:
three links are extracted and three results are returned. -/
theorem C7_one_result_per_link_witness :
    (validate_links_in_file fsNone envMissing (Except.ok sampleDoc)
        "/d").length = (extract_links sampleDoc).length ∧
    (extract_links sampleDoc).length = 3 :=
  ⟨C7_one_result_per_link fsNone envMissing "/d" sampleDoc
    (Except.ok sampleDoc) rfl, by decide⟩

/-- C8: when resolving a local-file target raises, the per-link step
still yields exactly one result entry for that link, an invalid one
whose reason string carries the underlying cause after the fixed
`Error resolving path: ` text; being a total function, the validator
propagates no exception. -/
theorem C8_resolution_error_is_invalid (fs : FileSystem)
    (pdfinfo : String → PdfInfoRun) (dir : String) (l : Link) (e : String)
    (hs : isSpecial l.url = false)
    (h1 : pyStartsWith l.url "#" = false)
    (h2 : pyStartsWith l.url "http" = false)
    (hres : fs.resolve (if pyStartsWith l.url "/" then l.url
      else joinPath dir l.url) = Except.error e) :
    process_link fs pdfinfo dir l =
      Entry.res ⟨l.url, l.text, l.ltype, Status.invalid,
        "Error resolving path: " ++ e, none, none⟩ := by
  unfold process_link validate_local_file
  simp [hs, h1, h2, hres]

/-- Witness for C8 with an oracle whose resolution always raises with
message `boom`: the link gets an invalid entry naming the cause. -/
theorem C8_resolution_error_is_invalid_witness :
    process_link fsBroken envMissing "/docs" ⟨"markdown", "m", "./nope.md"⟩ =
      Entry.res ⟨"./nope.md", "m", "markdown", Status.invalid,
        "Error resolving path: boom", none, none⟩ :=
  C8_resolution_error_is_invalid fsBroken envMissing "/docs"
    ⟨"markdown", "m", "./nope.md"⟩ "boom" (by decide) (by decide) (by decide)
    rfl

set_option maxRecDepth 10000 in
/-- C9 counterexample: a generated summary whose first detected section
holds a 250-character content line emits a content preview of length
203 — the 200-character slice plus the unconditional three-character
ellipsis — so previews are not bounded by 200 characters. -/
theorem C9_preview_cex :
    (key_section_blocks (detect_sections longPdfText)).map
        (fun b => b.2.data.length) = [203] ∧
    ¬ (∀ b ∈ key_section_blocks (detect_sections longPdfText),
        b.2.data.length ≤ 200) := by
  decide

/-- C9 amended: the table of contents covers at most the first 20
detected sections, the key-sections part at most the first 10, and each
emitted content preview is at most 203 characters long (a 200-character
slice of the joined first three content lines plus a three-character
ellipsis, or the fixed `No content`). -/
theorem C9_summary_limits (sections : List PSection) :
    (toc_entries sections).length ≤ 20 ∧
    (key_section_blocks sections).length ≤ 10 ∧
    ∀ b ∈ key_section_blocks sections, b.2.data.length ≤ 203 := by
  refine ⟨?_, ?_, ?_⟩
  · unfold toc_entries
    rw [List.length_map, List.enum_length]
    exact List.length_take_le _ _
  · unfold key_section_blocks
    rw [List.length_map]
    exact List.length_take_le _ _
  · intro b hb
    unfold key_section_blocks at hb
    rw [List.mem_map] at hb
    obtain ⟨s, _, rfl⟩ := hb
    dsimp only
    unfold content_preview
    split
    · decide
    · rw [String.data_append, List.length_append]
      have hlen : (pyTrunc (pyJoin " " (s.content.take 3)) 200).data.length ≤
          200 := List.length_take_le _ _
      have h3 : ("..." : String).data.length = 3 := by decide
      omega

/-- Witness for C9 amended on a one-section list: the preview of a short
section is `x...` and all three bounds hold. -/
theorem C9_summary_limits_witness :
    (toc_entries [⟨"T", ["x"]⟩]).length ≤ 20 ∧
    content_preview ⟨"T", ["x"]⟩ = "x..." ∧
    (content_preview ⟨"T", ["x"]⟩).data.length ≤ 203 :=
  ⟨(C9_summary_limits [⟨"T", ["x"]⟩]).1, by decide,
   (C9_summary_limits [⟨"T", ["x"]⟩]).2.2 ("T", content_preview ⟨"T", ["x"]⟩)
     (by decide)⟩

/-- C10: for a valid link ending in `.pdf` whose joined path exists,
when invoking `pdfinfo` raises `FileNotFoundError` (the tool is not
installed), the accessibility check returns a readable verdict with the
install hint, and the link entry therefore carries
`pdf_status = valid` — the absent collaborator never yields an invalid
cross-format status. -/
theorem C10_missing_pdfinfo_is_valid (fs : FileSystem)
    (pdfinfo : String → PdfInfoRun) (dir : String) (l : Link)
    (hs : isSpecial l.url = false)
    (hp : pyEndsWith l.url ".pdf" = true)
    (hv : (validate_local_file fs l.url dir).1 = true)
    (he : fs.pathExists (pdfPathOf dir l.url) = true)
    (hm : pdfinfo (pdfPathOf dir l.url) = PdfInfoRun.toolMissing) :
    validate_pdf_accessibility PdfInfoRun.toolMissing =
      (true, "pdfinfo not available (install poppler-utils for PDF validation)") ∧
    entryPdfStatus (process_link fs pdfinfo dir l) = some Status.valid := by
  refine ⟨rfl, ?_⟩
  unfold process_link
  simp [hs, hp, hv, he, hm, entryPdfStatus, validate_pdf_accessibility]

/-- Witness for C10 with a concrete existing `doc.pdf` target and the
pdfinfo-not-installed oracle: the entry carries a valid pdf status. -/
theorem C10_missing_pdfinfo_is_valid_witness :
    entryPdfStatus (process_link fsAll envMissing "/docs"
      ⟨"markdown", "d", "doc.pdf"⟩) = some Status.valid :=
  (C10_missing_pdfinfo_is_valid fsAll envMissing "/docs"
    ⟨"markdown", "d", "doc.pdf"⟩ (by decide) (by decide) (by decide)
    (by decide) rfl).2

end PdfTools
